import Mathlib

/- Shallow embedding of the capcut-scraper repository: `capcut_scraper.py`
(automated variant, class CapCutCatboxScraper) and `manual_processor.py`
(manual variant, class ManualTemplateProcessor). Python strings are modelled
as `List Char`, Python `None` as `Option.none`, and machine interaction
(HTTP responses, video decoding, file-removal errors) as explicit environment
records consumed by pure pipeline functions. Each regular expression used by
the code is simple enough that leftmost `re.search` semantics determinize to
"scan every position, apply a position-local tester"; each tester's doc
comment records the backtracking argument for that determinization. -/

namespace Capcut

/-- Whitespace set of Python `str.strip` and of the regex class `\s` (ASCII). -/
def isPySpace (c : Char) : Bool :=
  c = ' ' || c = '\t' || c = '\n' || c = '\r' || c = '\x0b' || c = '\x0c'

/-- Python `str.strip()`: drop leading and trailing whitespace. -/
def pyStrip (l : List Char) : List Char :=
  ((l.dropWhile isPySpace).reverse.dropWhile isPySpace).reverse

/-- Number of positions of `s` at which `pat` occurs as a contiguous
substring (occurrences may overlap). -/
def countSubstr : List Char → List Char → Nat
  | [], pat => if pat.isEmpty then 1 else 0
  | c :: rest, pat =>
    (if pat.isPrefixOf (c :: rest) then 1 else 0) + countSubstr rest pat

/-- Leftmost-match search: apply the position tester `f` at every suffix of
the input, leftmost position first, and return the first hit. This is the
semantics of `re.search` for the position-local patterns modelled below. -/
def scanFirst (f : List Char → Option (List Char)) : List Char → Option (List Char)
  | [] => f []
  | c :: rest =>
    match f (c :: rest) with
    | some r => some r
    | none => scanFirst f rest

/-- First non-`none` entry of a list of optional results: the `for pattern in
patterns: ... return match.group(1)` loop shared by both extractors. -/
def firstSome : List (Option (List Char)) → Option (List Char)
  | [] => none
  | some r :: _ => some r
  | none :: rest => firstSome rest

/-- Position tester for `template_id=(\d+)`: the literal, then at least one
digit; the greedy group is the maximal digit run. -/
def matchTidParamAt (s : List Char) : Option (List Char) :=
  if ("template_id=".data).isPrefixOf s
      ∧ ¬((s.drop ("template_id=".data).length).takeWhile Char.isDigit).isEmpty
  then some ((s.drop ("template_id=".data).length).takeWhile Char.isDigit)
  else none

/-- Position tester for `template-detail/[^/]+/(\d+)`: the literal, then a
nonempty segment of non-slash characters — `[^/]+` cannot cross a '/', so
with the mandatory '/' right after it, greedy matching with backtracking
succeeds only on exactly the maximal non-slash run — then '/', then at least
one digit; the group is the maximal digit run after that slash. When the
character run after the literal reaches the end of the string with no '/',
`dropWhile` returns `[]` and the tester fails, as the regex does. -/
def matchDetailAt (s : List Char) : Option (List Char) :=
  if ("template-detail/".data).isPrefixOf s
      ∧ ¬((s.drop ("template-detail/".data).length).takeWhile (fun c => c != '/')).isEmpty
      ∧ ¬((((s.drop ("template-detail/".data).length).dropWhile (fun c => c != '/')).drop 1).takeWhile Char.isDigit).isEmpty
  then some ((((s.drop ("template-detail/".data).length).dropWhile (fun c => c != '/')).drop 1).takeWhile Char.isDigit)
  else none

/-- Position tester for `/(\d{19})/?$`: a '/', then exactly 19 digits (a run
of any other length fails: `\d{19}` cannot shrink and a 20th digit defeats
the anchored `/?$`), then end of input or a single final '/'. -/
def matchBare19At (s : List Char) : Option (List Char) :=
  match s with
  | [] => none
  | c :: rest =>
    if c = '/' ∧ (rest.takeWhile Char.isDigit).length = 19
        ∧ (rest.dropWhile Char.isDigit = [] ∨ rest.dropWhile Char.isDigit = ['/'])
    then some (rest.takeWhile Char.isDigit)
    else none

/-- Position tester for `template/(\d+)`: the literal, then at least one
digit; the group is the maximal digit run. -/
def matchTemplateSlashAt (s : List Char) : Option (List Char) :=
  if ("template/".data).isPrefixOf s
      ∧ ¬((s.drop ("template/".data).length).takeWhile Char.isDigit).isEmpty
  then some ((s.drop ("template/".data).length).takeWhile Char.isDigit)
  else none

/-- Position tester for `/(\d{16,20})/?`: a '/', then a digit run of length
at least 16, of which the greedy quantifier captures the first `min(run, 20)`
digits; the trailing `/?` never constrains. -/
def matchLongRunAt (s : List Char) : Option (List Char) :=
  match s with
  | [] => none
  | c :: rest =>
    if c = '/' ∧ 16 ≤ (rest.takeWhile Char.isDigit).length
    then some ((rest.takeWhile Char.isDigit).take 20)
    else none

/-- `CapCutCatboxScraper.extract_template_id` (capcut_scraper.py:172): try
five URL regexes in order, returning the first match's captured group. -/
def extract_template_id (url : List Char) : Option (List Char) :=
  firstSome
    [scanFirst matchTidParamAt url,
     scanFirst matchDetailAt url,
     scanFirst matchBare19At url,
     scanFirst matchTemplateSlashAt url,
     scanFirst matchLongRunAt url]

/-- `ManualTemplateProcessor.extract_template_id` (manual_processor.py:50):
same loop over only the first, second and fifth of those patterns. -/
def extract_template_id_manual (url : List Char) : Option (List Char) :=
  firstSome
    [scanFirst matchTidParamAt url,
     scanFirst matchDetailAt url,
     scanFirst matchLongRunAt url]

example : extract_template_id "https://x/template-detail/foo/123456789012345".data
    = some "123456789012345".data := by decide
example : extract_template_id "https://x/template/123".data = some "123".data := by decide
example : extract_template_id_manual "https://x/template/123".data = none := by decide
example : extract_template_id "https://x/abc".data = none := by decide
example : extract_template_id "https://x/template-detail/a/b/123".data = none := by decide
example : extract_template_id "/1234567890123456/xx/1234567890123456789".data
    = some "1234567890123456789".data := by decide
example : extract_template_id_manual "/1234567890123456/xx/1234567890123456789".data
    = some "1234567890123456".data := by decide
example : extract_template_id "/12345678901234567890123".data
    = some "12345678901234567890".data := by decide
example : extract_template_id "template_id=007x".data = some "007".data := by decide
example : extract_template_id "https://x/template-detail/foo/12x34".data
    = some "12".data := by decide

/-- Fixed text of the deep-link f-string before the first interpolation of
`template_id` (identical literal in capcut_scraper.py:195 and
manual_processor.py:69). -/
def capcutLinkPre : List Char :=
  "https://capcut-yt.onelink.me/W3Oy/cw7bmax3?af_dp=capcut%3A%2F%2Ftemplate%2Fdetail%3Fenter_app%3Dother%26enter_from%3DSEO_detail_page%26template_id%3D".data

/-- Fixed text of the deep-link f-string between the two interpolations. -/
def capcutLinkMid : List Char :=
  "%26template_language%3DNone&af_xp=social&deep_link_sub1=%7B%22share_token%22%3A%22None%22%7D&deep_link_value=capcut%253A%252F%252Ftemplate%252Fdetail%253Fenter_app%253Dother%2526enter_from%253DSEO_detail_page%2526template_id%253D".data

/-- Fixed text of the deep-link f-string after the second interpolation. -/
def capcutLinkSuf : List Char :=
  "%2526template_language%253DNone&is_retargeting=true&pid=SEO_detail".data

/-- The f-string of `generate_capcut_link` with `template_id` substituted in
its two slots. -/
def capcutLinkOf (id : List Char) : List Char :=
  capcutLinkPre ++ id ++ capcutLinkMid ++ id ++ capcutLinkSuf

/-- `generate_capcut_link` (identical in both variants, capcut_scraper.py:189
and manual_processor.py:64): `if not template_id: return None` — falsy means
`None` or the empty string — else the deep-link f-string. -/
def generate_capcut_link : Option (List Char) → Option (List Char)
  | none => none
  | some s => if s.isEmpty then none else some (capcutLinkOf s)

/-- Literal `'https://'` used by the upload success checks. -/
def httpsPref : List Char := "https://".data

/-- Upload timeout passed by the automated variant (capcut_scraper.py:81). -/
def catboxTimeoutAuto : Nat := 60

/-- Upload timeout passed by the manual variant (manual_processor.py:35). -/
def catboxTimeoutManual : Nat := 30

/-- `CapCutCatboxScraper.upload_to_catbox` (capcut_scraper.py:67). The HTTP
interaction is an oracle: `none` models a raised exception (network error or
timeout), `some (status, body)` a completed response. On status 200 the body is
stripped first and the `https://` check is made on the stripped text. -/
def uploadCatboxAuto : Option (Nat × List Char) → Option (List Char)
  | none => none
  | some (status, body) =>
    if status = 200 then
      if httpsPref.isPrefixOf (pyStrip body) then some (pyStrip body) else none
    else none

/-- `ManualTemplateProcessor.upload_to_catbox` (manual_processor.py:22): the
`https://` check is made on the raw, unstripped body; the returned URL is the
stripped body. -/
def uploadCatboxManual : Option (Nat × List Char) → Option (List Char)
  | none => none
  | some (status, body) =>
    if status = 200 ∧ httpsPref.isPrefixOf body then some (pyStrip body) else none

example : uploadCatboxAuto (some (200, "https://files.catbox.moe/a.mp4\n".data))
    = some "https://files.catbox.moe/a.mp4".data := by decide
example : uploadCatboxAuto (some (200, "\nhttps://a".data)) = some "https://a".data := by decide
example : uploadCatboxManual (some (200, "\nhttps://a".data)) = none := by decide
example : uploadCatboxAuto (some (412, "https://a".data)) = none := by decide
example : uploadCatboxManual (some (200, "https://a\n".data)) = some "https://a".data := by decide

/-- Truncation `int(q)` of Python on a (rational-valued) float. -/
def pyInt (q : ℚ) : ℤ := if q < 0 then ⌈q⌉ else ⌊q⌋

/-- A local video file as observed through `cv2.VideoCapture`: whether it
opens, the FPS and frame-count metadata it reports (cv2 reports 0.0 when the
metadata is absent), and which frame indices seek-and-read can decode. -/
structure VideoFile where
  canOpen : Bool
  fps : ℚ
  totalFrames : ℚ
  readFrameAt : ℤ → Bool

/-- Lines 113-115 of capcut_scraper.py: `duration = total_frames / fps if
fps > 0 else 0`. -/
def durationOf (v : VideoFile) : ℚ :=
  if 0 < v.fps then v.totalFrames / v.fps else 0

/-- Lines 118-121 of capcut_scraper.py: retarget a timestamp beyond the video
duration to the midpoint, then `frame_number = int(timestamp * fps)`. -/
def targetFrame (v : VideoFile) (ts : ℚ) : ℤ :=
  pyInt ((if durationOf v < ts then durationOf v / 2 else ts) * v.fps)

/-- `extract_video_thumbnail` (capcut_scraper.py:100), with the output path
abstracted. It fails only when the file does not open or the computed target
frame does not decode; zero FPS only drives the target to frame 0. -/
def extract_video_thumbnail (v : VideoFile) (ts : ℚ) (outPath : List Char) :
    Option (List Char) :=
  if v.canOpen then
    if v.readFrameAt (targetFrame v ts) then some outPath else none
  else none

/-- `extract_thumbnail` (manual_processor.py:90): seeks frame 30 directly with
no metadata check; `cv2.read` on a capture that failed to open returns
`ret = False`. -/
def extract_thumbnail_manual (v : VideoFile) (outPath : List Char) :
    Option (List Char) :=
  if v.canOpen && v.readFrameAt 30 then some outPath else none

/-- Word characters of the regex class `\w` (ASCII). -/
def isWordChar (c : Char) : Bool := c.isAlphanum || c = '_'

/-- State machine for `re.findall(r'#(\w+)', text)`: `pending = some w` means
a '#' was seen and `w` (reversed) is the word run captured so far. A word
character extends the capture; any other character emits the capture when
nonempty — and, when it is another '#', opens a new one. Since `'#'` is not a
word character, this agrees with findall's non-overlapping leftmost scan,
which resumes right after each captured run. -/
def findHashtagsAux : List Char → Option (List Char) → List (List Char)
  | [], pending =>
    match pending with
    | some w => if w.isEmpty then [] else [w.reverse]
    | none => []
  | c :: rest, pending =>
    match pending with
    | some w =>
      if isWordChar c then findHashtagsAux rest (some (c :: w))
      else if w.isEmpty then findHashtagsAux rest (if c = '#' then some [] else none)
      else w.reverse :: findHashtagsAux rest (if c = '#' then some [] else none)
    | none =>
      if c = '#' then findHashtagsAux rest (some []) else findHashtagsAux rest none

/-- `re.findall(r'#(\w+)', text)` over the page's visible text. -/
def findHashtags (l : List Char) : List (List Char) := findHashtagsAux l none

example : findHashtags "#a#b x #c! ## #_d".data
    = ["a".data, "b".data, "c".data, "_d".data] := by decide

/-- Prepend a character to the first group of a split result. -/
def consHead (c : Char) : List (List Char) → List (List Char)
  | [] => [[c]]
  | l :: ls => (c :: l) :: ls

/-- Python `str.split(',')`. -/
def splitComma : List Char → List (List Char)
  | [] => [[]]
  | c :: rest => if c = ',' then [] :: splitComma rest else consHead c (splitComma rest)

example : splitComma "a, b,,c".data = ["a".data, " b".data, [], "c".data] := by decide

/-- `extract_tags` (capcut_scraper.py:317): comma-split, stripped, nonempty
keywords from the meta tag (`none` models the absence of a keywords meta tag),
plus the first 5 hashtags from the visible text, then `list(set(tags))[:5]` —
CPython set iteration order is arbitrary, modelled here with `List.dedup`,
which keeps one occurrence of each element — truncated to 5. -/
def extract_tags (keywordsContent : Option (List Char)) (text : List Char) :
    List (List Char) :=
  let kw := match keywordsContent with
    | none => []
    | some content => ((splitComma content).map pyStrip).filter (fun t => !t.isEmpty)
  ((kw ++ (findHashtags text).take 5).dedup).take 5

/-- Position tester for `(\d+):(\d+)`: a maximal digit run (greedy `\d+`
followed by the non-digit ':' can only match the whole run), then ':', then
at least one digit; `group(0)` — the whole match — is what the caller uses. -/
def matchClockAt (s : List Char) : Option (List Char) :=
  match s with
  | [] => none
  | c :: _ =>
    if c.isDigit ∧ (s.dropWhile Char.isDigit).head? = some ':'
        ∧ ¬(((s.dropWhile Char.isDigit).drop 1).takeWhile Char.isDigit).isEmpty
    then some (s.takeWhile Char.isDigit
          ++ ':' :: ((s.dropWhile Char.isDigit).drop 1).takeWhile Char.isDigit)
    else none

/-- Position tester for `(\d+)s`: a maximal digit run then the letter 's'. -/
def matchSecsAt (s : List Char) : Option (List Char) :=
  match s with
  | [] => none
  | c :: _ =>
    if c.isDigit ∧ (s.dropWhile Char.isDigit).head? = some 's'
    then some (s.takeWhile Char.isDigit ++ ['s'])
    else none

/-- Position tester for `(\d+)\s*sec`: a maximal digit run, maximal (greedy
`\s*` followed by the non-space 's' cannot shrink) whitespace, then `sec`. -/
def matchSecWordAt (s : List Char) : Option (List Char) :=
  match s with
  | [] => none
  | c :: _ =>
    if c.isDigit ∧ ("sec".data).isPrefixOf ((s.dropWhile Char.isDigit).dropWhile isPySpace)
    then some (s.takeWhile Char.isDigit
          ++ (s.dropWhile Char.isDigit).takeWhile isPySpace ++ "sec".data)
    else none

/-- `extract_duration` (capcut_scraper.py:334): first match of the three
duration patterns tried in order, else the `"0:15"` default. -/
def extract_duration (text : List Char) : List Char :=
  match firstSome
    [scanFirst matchClockAt text,
     scanFirst matchSecsAt text,
     scanFirst matchSecWordAt text] with
  | some r => r
  | none => "0:15".data

example : extract_duration "11:23".data = "11:23".data := by decide
example : extract_duration "0:05 and 1:23".data = "0:05".data := by decide
example : extract_duration "1:23".data = "1:23".data := by decide
example : extract_duration "abc".data = "0:15".data := by decide
example : extract_duration "30s".data = "30s".data := by decide
example : extract_duration "15 sec".data = "15 sec".data := by decide
example : extract_duration "1x 1:23".data = "1:23".data := by decide

/-- Truthiness of an optional Python string: `None` and `""` are falsy. -/
def pyTruthyB : Option (List Char) → Bool
  | none => false
  | some s => !s.isEmpty

/-- The `template_data` dict built by `scrape_template_page`
(capcut_scraper.py:220). -/
structure TemplateData where
  web_url : List Char
  title : List Char
  template_id : Option (List Char)
  description : List Char
  tags : List (List Char)
  duration : List Char
  video_url : Option (List Char)
  thumbnail_url : Option (List Char)
  capcut_link : Option (List Char)

/-- Outcome of a `download_video` call. A request that fails before the output
file is opened (connection error, `raise_for_status`) leaves no file; a
failure while streaming chunks leaves a partial file on disk; both return
`None` to the caller. -/
inductive DlOutcome
  | earlyFail
  | lateFail
  | ok
deriving DecidableEq

/-- Environment of one `scrape_template_page` invocation: everything the
surrounding machinery (browser, parser oracles for the DOM-selector lookups,
network, decoder, filesystem) feeds into the pipeline. `titleText` and
`descText` stand for the selector-chain results of `extract_title` and
`extract_description`, whose DOM traversal is not modelled; `keywordsContent`
and `pageText` are the meta-keywords content and visible text that
`extract_tags` and `extract_duration` consume. -/
structure ScrapeEnv where
  pageUrl : List Char
  titleText : List Char
  descText : List Char
  keywordsContent : Option (List Char)
  pageText : List Char
  videoSrc : Option (List Char)
  download : DlOutcome
  video : VideoFile
  uploadVideoResp : Option (Nat × List Char)
  uploadThumbResp : Option (Nat × List Char)
  rmVideoFails : Bool
  rmThumbFails : Bool

/-- Per-record temp file of the automated variant (real names embed the
template id and `time.time()`; the names are immaterial here). -/
def videoPathAuto : List Char := "downloads/videos/video.mp4".data

/-- Thumbnail temp file of the automated variant. -/
def thumbPathAuto : List Char := "downloads/thumbnails/thumb.jpg".data

/-- Result of one `scrape_template_page` run: the `template_data` dict as it
stood at exit, whether the record was returned (line 268's check — the caller
appends exactly when it was), and the per-record temp files still on disk. -/
structure ScrapeOut where
  data : TemplateData
  appended : Bool
  leftoverFiles : List (List Char)

/-- `scrape_template_page` (capcut_scraper.py:199). Stage order: build the
dict, resolve a video source, generate the deep link, download, extract the
thumbnail, upload both files, clean up (lines 261-266 — reached only inside
the `if extract_video_thumbnail` branch; `os.remove` of the thumbnail is
skipped when removing the video raises), then the line-268 check. -/
def scrapeTemplatePage (env : ScrapeEnv) : ScrapeOut :=
  let tid := extract_template_id env.pageUrl
  let base : TemplateData :=
    { web_url := env.pageUrl, title := env.titleText, template_id := tid
      description := env.descText
      tags := extract_tags env.keywordsContent env.pageText
      duration := extract_duration env.pageText
      video_url := none, thumbnail_url := none, capcut_link := none }
  match env.videoSrc with
  | none => { data := base, appended := false, leftoverFiles := [] }
  | some _ =>
    let base :=
      { base with capcut_link :=
          if pyTruthyB tid then generate_capcut_link tid else none }
    match env.download with
    | .earlyFail => { data := base, appended := false, leftoverFiles := [] }
    | .lateFail => { data := base, appended := false, leftoverFiles := [videoPathAuto] }
    | .ok =>
      match extract_video_thumbnail env.video 2 thumbPathAuto with
      | none => { data := base, appended := false, leftoverFiles := [videoPathAuto] }
      | some _ =>
        let vUrl := uploadCatboxAuto env.uploadVideoResp
        let tUrl := uploadCatboxAuto env.uploadThumbResp
        { data := { base with video_url := vUrl, thumbnail_url := tUrl }
          appended := pyTruthyB vUrl && pyTruthyB tUrl
          leftoverFiles :=
            if env.rmVideoFails then [videoPathAuto, thumbPathAuto]
            else if env.rmThumbFails then [thumbPathAuto]
            else [] }

/-- The `template_data` dict built by `process_template`
(manual_processor.py:150). -/
structure ManualData where
  title : List Char
  template_id : Option (List Char)
  capcut_link : List Char
  video_url : List Char
  thumbnail_url : List Char
  original_url : List Char
  video_source : List Char

/-- Environment of one `process_template` invocation. -/
structure ManualEnv where
  title : List Char
  videoSrcUrl : List Char
  templateUrl : Option (List Char)
  download : DlOutcome
  video : VideoFile
  uploadVideoResp : Option (Nat × List Char)
  uploadThumbResp : Option (Nat × List Char)
  rmVideoFails : Bool
  rmThumbFails : Bool

/-- Per-record temp video of the manual variant (real names embed the
sanitized title; immaterial here). -/
def videoFileManual : List Char := "temp/video.mp4".data

/-- Per-record temp thumbnail of the manual variant. -/
def thumbFileManual : List Char := "temp/video.jpg".data

/-- Result of one `process_template` run. -/
structure ManualOut where
  result : Option ManualData
  leftoverFiles : List (List Char)

/-- `process_template` (manual_processor.py:113). Stage order: extract the
template id, download, extract the thumbnail, upload both files, clean up
(lines 143-147 — only on this success path, with the thumbnail removal
skipped when removing the video raises), then the line-149 truthiness check
that decides whether the record is built and appended. -/
def processTemplate (env : ManualEnv) : ManualOut :=
  let tid := match env.templateUrl with
    | none => none
    | some u => extract_template_id_manual u
  match env.download with
  | .earlyFail => { result := none, leftoverFiles := [] }
  | .lateFail => { result := none, leftoverFiles := [videoFileManual] }
  | .ok =>
    match extract_thumbnail_manual env.video thumbFileManual with
    | none => { result := none, leftoverFiles := [videoFileManual] }
    | some _ =>
      let vUrl := uploadCatboxManual env.uploadVideoResp
      let tUrl := uploadCatboxManual env.uploadThumbResp
      let files :=
        if env.rmVideoFails then [videoFileManual, thumbFileManual]
        else if env.rmThumbFails then [thumbFileManual]
        else []
      match vUrl, tUrl with
      | some v, some t =>
        if v.isEmpty || t.isEmpty then { result := none, leftoverFiles := files }
        else
          { result := some
              { title := env.title, template_id := tid
                capcut_link :=
                  if pyTruthyB tid then (generate_capcut_link tid).getD [] else []
                video_url := v, thumbnail_url := t
                original_url := env.templateUrl.getD []
                video_source := env.videoSrcUrl }
            leftoverFiles := files }
      | some _, none => { result := none, leftoverFiles := files }
      | none, _ => { result := none, leftoverFiles := files }

/-- QUOTE_MINIMAL test of the csv module: a field is quoted when it contains
the delimiter, the quote character, or a line-terminator character. -/
def needsQuoteB (f : List Char) : Bool :=
  f.any (fun c => c = ',' || c = '"' || c = '\r' || c = '\n')

/-- Double every quote character, as the csv writer does inside quotes. -/
def escapeQuotes : List Char → List Char
  | [] => []
  | c :: rest =>
    if c = '"' then '"' :: '"' :: escapeQuotes rest else c :: escapeQuotes rest

/-- One field as the csv module renders it (QUOTE_MINIMAL). -/
def renderField (f : List Char) : List Char :=
  if needsQuoteB f then '"' :: (escapeQuotes f ++ ['"']) else f

/-- Fields joined with the ',' delimiter. -/
def joinComma : List (List Char) → List Char
  | [] => []
  | f :: rest =>
    match rest with
    | [] => f
    | _ :: _ => f ++ ',' :: joinComma rest

/-- One csv row, without its line terminator. -/
def rowChars (fields : List (List Char)) : List Char :=
  joinComma (fields.map renderField)

/-- Rows serialized with the csv module's default `\r\n` terminator. -/
def csvContent : List (List (List Char)) → List Char
  | [] => []
  | r :: rest => rowChars r ++ '\r' :: '\n' :: csvContent rest

/-- Column order of `export_to_csv` (capcut_scraper.py:470). -/
def autoFieldnames : List (List Char) :=
  ["title".data, "template_id".data, "capcut_link".data, "video_url".data,
   "thumbnail_url".data, "web_url".data, "description".data, "tags".data,
   "duration".data]

/-- Python `', '.join(...)` used for the tags column. -/
def joinCommaSpace : List (List Char) → List Char
  | [] => []
  | t :: rest =>
    match rest with
    | [] => t
    | _ :: _ => t ++ ',' :: ' ' :: joinCommaSpace rest

/-- Values of one row of `export_to_csv` (capcut_scraper.py:486): the csv
writer renders a `None` value as the empty field. -/
def autoRowFields (d : TemplateData) : List (List Char) :=
  [d.title, d.template_id.getD [], d.capcut_link.getD [], d.video_url.getD [],
   d.thumbnail_url.getD [], d.web_url, d.description, joinCommaSpace d.tags,
   d.duration]

/-- `export_to_csv` (capcut_scraper.py:459): `none` models the
empty-collection early return, in which no file is written at all. -/
def export_to_csv (ts : List TemplateData) : Option (List Char) :=
  if ts.isEmpty then none
  else some (csvContent (autoFieldnames :: ts.map autoRowFields))

/-- Column order of `export_csv` (manual_processor.py:172). -/
def manualFieldnames : List (List Char) :=
  ["title".data, "template_id".data, "capcut_link".data, "video_url".data,
   "thumbnail_url".data, "original_url".data]

/-- Values of one row of `export_csv` (manual_processor.py:177);
`video_source` is not exported. -/
def manualRowFields (d : ManualData) : List (List Char) :=
  [d.title, d.template_id.getD [], d.capcut_link, d.video_url,
   d.thumbnail_url, d.original_url]

/-- `export_csv` (manual_processor.py:167): header plus one row per record,
written even for an empty collection. -/
def export_csv (ts : List ManualData) : List Char :=
  csvContent (manualFieldnames :: ts.map manualRowFields)

/-- Split a character stream at every `\r\n`; inverse view of `csvContent`
for rows free of line-terminator characters. -/
def splitCRLF : List Char → List (List Char)
  | [] => [[]]
  | [c] => [[c]]
  | c :: d :: rest =>
    if c = '\r' ∧ d = '\n' then [] :: splitCRLF rest
    else consHead c (splitCRLF (d :: rest))

example : splitCRLF "ab,c\r\nd\r\n".data = ["ab,c".data, "d".data, []] := by decide
example : rowChars ["a,b".data, "c\"d".data, "e".data] = "\"a,b\",\"c\"\"d\",e".data := by
  decide

/-- Length of the longest run of consecutive digits (`cur` is the current run,
`best` the best completed one). -/
def maxDigitRunAux : List Char → Nat → Nat → Nat
  | [], cur, best => max cur best
  | c :: rest, cur, best =>
    if c.isDigit then maxDigitRunAux rest (cur + 1) best
    else maxDigitRunAux rest 0 (max cur best)

/-- Length of the longest digit run in a string. -/
def maxDigitRun (l : List Char) : Nat := maxDigitRunAux l 0 0

example : maxDigitRun "https://x/template/123".data = 3 := by decide

lemma isPrefixOf_append_self (l t : List Char) : l.isPrefixOf (l ++ t) = true :=
  List.isPrefixOf_iff_prefix.mpr (List.prefix_append l t)

lemma countSubstr_le_append (a b pat : List Char) :
    countSubstr b pat ≤ countSubstr (a ++ b) pat := by
  induction a with
  | nil => simp
  | cons c a ih =>
    have h : countSubstr ((c :: a) ++ b) pat
        = (if pat.isPrefixOf (c :: (a ++ b)) then 1 else 0) + countSubstr (a ++ b) pat := rfl
    rw [h]
    exact le_trans ih (Nat.le_add_left _ _)

lemma countSubstr_self_append (pat rest : List Char) (h : pat ≠ []) :
    1 + countSubstr rest pat ≤ countSubstr (pat ++ rest) pat := by
  cases pat with
  | nil => exact absurd rfl h
  | cons d p =>
    have he : countSubstr ((d :: p) ++ rest) (d :: p)
        = (if (d :: p).isPrefixOf (d :: (p ++ rest)) then 1 else 0)
            + countSubstr (p ++ rest) (d :: p) := rfl
    rw [he, show d :: (p ++ rest) = (d :: p) ++ rest from rfl,
      isPrefixOf_append_self]
    simpa using countSubstr_le_append p rest (d :: p)

/-- C3 (amended): for any non-empty digit string `D`, the generated deep link
contains `D` as a substring at least twice (the two interpolation slots) —
though not always exactly twice, since short digit strings also occur in the
fixed URL text — and `generate_capcut_link` of `none` is `none`. -/
theorem generate_capcut_link_contains_id (id : List Char)
    (hne : id ≠ []) (_hdig : ∀ c ∈ id, c.isDigit = true) :
    (∃ link, generate_capcut_link (some id) = some link ∧ 2 ≤ countSubstr link id)
      ∧ generate_capcut_link none = none := by
  refine ⟨⟨capcutLinkOf id, ?_, ?_⟩, rfl⟩
  · simp [generate_capcut_link, List.isEmpty_iff, hne]
  · have hassoc : capcutLinkOf id
        = capcutLinkPre ++ (id ++ (capcutLinkMid ++ (id ++ capcutLinkSuf))) := by
      simp [capcutLinkOf, List.append_assoc]
    rw [hassoc]
    have h1 := countSubstr_le_append capcutLinkPre
      (id ++ (capcutLinkMid ++ (id ++ capcutLinkSuf))) id
    have h2 := countSubstr_self_append id (capcutLinkMid ++ (id ++ capcutLinkSuf)) hne
    have h3 := countSubstr_le_append capcutLinkMid (id ++ capcutLinkSuf) id
    have h4 := countSubstr_self_append id capcutLinkSuf hne
    omega

/-- Witness for C3's theorem at a concrete 19-digit id. -/
theorem generate_capcut_link_contains_id_w :
    (∃ link, generate_capcut_link (some "7354910982935121170".data) = some link
        ∧ 2 ≤ countSubstr link "7354910982935121170".data)
      ∧ generate_capcut_link none = none :=
  generate_capcut_link_contains_id _ (by decide) (by decide)

set_option maxRecDepth 20000 in
/-- C3 counterexample: `"2"` is a non-empty digit string, yet the generated
link does not contain it exactly twice (the fixed URL text is full of 2s). -/
theorem generate_capcut_link_twice_cex :
    ("2".data ≠ [] ∧ ∀ c ∈ "2".data, c.isDigit = true)
      ∧ generate_capcut_link (some "2".data) = some (capcutLinkOf "2".data)
      ∧ countSubstr (capcutLinkOf "2".data) "2".data ≠ 2 := by
  refine ⟨by decide, rfl, by decide⟩

lemma takeWhile_digit_nil {l : List Char} (h : ∀ c ∈ l, c.isDigit = false) :
    l.takeWhile Char.isDigit = [] := by
  cases l with
  | nil => rfl
  | cons c rest => simp [List.takeWhile_cons, h c (List.mem_cons_self c rest)]

lemma noDigit_mono {l s : List Char} (hsub : s ⊆ l)
    (h : ∀ c ∈ l, c.isDigit = false) : ∀ c ∈ s, c.isDigit = false :=
  fun c hc => h c (hsub hc)

lemma scanFirst_eq_none {f : List Char → Option (List Char)} {l : List Char}
    (h : ∀ s, s <:+ l → f s = none) : scanFirst f l = none := by
  induction l with
  | nil => simpa [scanFirst] using h [] (List.suffix_refl [])
  | cons c rest ih =>
    have h1 : f (c :: rest) = none := h _ (List.suffix_refl _)
    simp only [scanFirst, h1]
    exact ih fun s hs => h s (hs.trans (List.suffix_cons c rest))

lemma matchTidParamAt_noDigit {s : List Char}
    (h : ∀ c ∈ s, c.isDigit = false) : matchTidParamAt s = none := by
  have hd : (s.drop ("template_id=".data).length).takeWhile Char.isDigit = [] :=
    takeWhile_digit_nil (noDigit_mono (List.drop_subset _ _) h)
  simp only [matchTidParamAt, hd]
  simp

lemma matchDetailAt_noDigit {s : List Char}
    (h : ∀ c ∈ s, c.isDigit = false) : matchDetailAt s = none := by
  have hsub : (((s.drop ("template-detail/".data).length).dropWhile
      (fun c => c != '/')).drop 1) ⊆ s := by
    intro c hc
    exact (List.drop_subset _ _)
      ((((s.drop _).dropWhile_suffix _).subset) ((List.drop_subset _ _) hc))
  have hd : ((((s.drop ("template-detail/".data).length).dropWhile
      (fun c => c != '/')).drop 1).takeWhile Char.isDigit) = [] :=
    takeWhile_digit_nil (noDigit_mono hsub h)
  simp only [matchDetailAt, hd]
  simp

lemma matchBare19At_noDigit {s : List Char}
    (h : ∀ c ∈ s, c.isDigit = false) : matchBare19At s = none := by
  cases s with
  | nil => rfl
  | cons c rest =>
    have hd : rest.takeWhile Char.isDigit = [] :=
      takeWhile_digit_nil (noDigit_mono (List.subset_cons_self c rest) h)
    simp only [matchBare19At, hd]
    simp

lemma matchTemplateSlashAt_noDigit {s : List Char}
    (h : ∀ c ∈ s, c.isDigit = false) : matchTemplateSlashAt s = none := by
  have hd : (s.drop ("template/".data).length).takeWhile Char.isDigit = [] :=
    takeWhile_digit_nil (noDigit_mono (List.drop_subset _ _) h)
  simp only [matchTemplateSlashAt, hd]
  simp

lemma matchLongRunAt_noDigit {s : List Char}
    (h : ∀ c ∈ s, c.isDigit = false) : matchLongRunAt s = none := by
  cases s with
  | nil => rfl
  | cons c rest =>
    have hd : rest.takeWhile Char.isDigit = [] :=
      takeWhile_digit_nil (noDigit_mono (List.subset_cons_self c rest) h)
    simp only [matchLongRunAt, hd]
    simp

/-- C4 (amended): the extractor yields `"123456789012345"` on the given URL,
and yields `none` on any URL with no digit at all. (The original "no 16-20
digit run and no template_id=" condition is not enough: the
`template-detail/...` and `template/...` patterns accept digit runs of any
length, see the counterexample.) -/
theorem extract_template_id_spec :
    extract_template_id "https://x/template-detail/foo/123456789012345".data
        = some "123456789012345".data
      ∧ ∀ url : List Char, (∀ c ∈ url, c.isDigit = false) →
          extract_template_id url = none := by
  constructor
  · decide
  · intro url h
    have hs : ∀ f : List Char → Option (List Char),
        (∀ t : List Char, (∀ c ∈ t, c.isDigit = false) → f t = none) →
          scanFirst f url = none := fun f hf =>
      scanFirst_eq_none fun s hsfx => hf s (noDigit_mono hsfx.subset h)
    rw [extract_template_id,
      hs _ fun t ht => matchTidParamAt_noDigit ht,
      hs _ fun t ht => matchDetailAt_noDigit ht,
      hs _ fun t ht => matchBare19At_noDigit ht,
      hs _ fun t ht => matchTemplateSlashAt_noDigit ht,
      hs _ fun t ht => matchLongRunAt_noDigit ht]
    rfl

/-- Witness for C4's theorem: a digit-free URL maps to `none`. -/
theorem extract_template_id_spec_w :
    extract_template_id "https://x/abc".data = none :=
  extract_template_id_spec.2 _ (by decide)

/-- C4 counterexample: `"https://x/template/123"` has no run of 16-20 digits
(its longest digit run has length 3) and no `template_id=` parameter, yet the
extractor returns `"123"` via the `template/(\d+)` pattern. -/
theorem extract_template_id_cex :
    maxDigitRun "https://x/template/123".data = 3
      ∧ scanFirst matchTidParamAt "https://x/template/123".data = none
      ∧ extract_template_id "https://x/template/123".data = some "123".data := by
  decide

/-- C10 (amended): on every URL where the two patterns exclusive to the
automated variant (`/(\d{19})/?$` and `template/(\d+)`) do not match, the two
extractors agree; they are not equal in general, see the counterexample. -/
theorem extract_template_id_variants_agree (url : List Char)
    (h3 : scanFirst matchBare19At url = none)
    (h4 : scanFirst matchTemplateSlashAt url = none) :
    extract_template_id url = extract_template_id_manual url := by
  cases ha : scanFirst matchTidParamAt url <;>
    cases hb : scanFirst matchDetailAt url <;>
      cases he : scanFirst matchLongRunAt url <;>
        simp [extract_template_id, extract_template_id_manual, firstSome,
          h3, h4, ha, hb, he]

/-- Witness for C10's theorem at a URL that both extractors resolve. -/
theorem extract_template_id_variants_agree_w :
    extract_template_id "https://x/template-detail/foo/123".data
      = extract_template_id_manual "https://x/template-detail/foo/123".data :=
  extract_template_id_variants_agree _ (by decide) (by decide)

/-- C10 counterexample: the two extractors disagree on
`"https://y/template/456"` (the automated one matches its `template/(\d+)`
pattern, the manual one has no matching pattern). -/
theorem extract_template_id_variants_cex :
    extract_template_id "https://y/template/456".data = some "456".data
      ∧ extract_template_id_manual "https://y/template/456".data = none := by
  decide

/-- C5 (amended): each uploader makes a single attempt and succeeds exactly
on an HTTP 200 whose body passes its `https://` check — on the *stripped*
body in the automated variant, on the *raw* body in the manual one — in both
cases returning the stripped body; the timeouts are 60s and 30s. The two
variants do not apply the same criterion, see the counterexample. -/
theorem upload_to_catbox_spec (resp : Option (Nat × List Char)) :
    (∀ u, uploadCatboxAuto resp = some u ↔
        ∃ b, resp = some (200, b) ∧ httpsPref.isPrefixOf (pyStrip b) = true
          ∧ u = pyStrip b)
      ∧ (∀ u, uploadCatboxManual resp = some u ↔
        ∃ b, resp = some (200, b) ∧ httpsPref.isPrefixOf b = true ∧ u = pyStrip b)
      ∧ catboxTimeoutAuto = 60 ∧ catboxTimeoutManual = 30 := by
  refine ⟨?_, ?_, rfl, rfl⟩ <;> intro u
  · cases resp with
    | none => simp [uploadCatboxAuto]
    | some p =>
      obtain ⟨s, b⟩ := p
      simp only [uploadCatboxAuto]
      by_cases hs : s = 200
      · subst hs
        rw [if_pos rfl]
        by_cases hp : httpsPref.isPrefixOf (pyStrip b) = true
        · rw [if_pos hp]
          constructor
          · intro h
            exact ⟨b, rfl, hp, (Option.some.inj h).symm⟩
          · rintro ⟨b2, hb2, hp2, hu⟩
            obtain ⟨rfl⟩ := (Prod.mk.injEq .. ▸ Option.some.inj hb2).2
            rw [hu]
        · rw [if_neg hp]
          constructor
          · intro h; exact absurd h (by simp)
          · rintro ⟨b2, hb2, hp2, hu⟩
            obtain ⟨-, rfl⟩ := Prod.mk.injEq .. ▸ Option.some.inj hb2
            exact absurd hp2 hp
      · rw [if_neg hs]
        constructor
        · intro h; exact absurd h (by simp)
        · rintro ⟨b2, hb2, hp2, hu⟩
          obtain ⟨h200, -⟩ := Prod.mk.injEq .. ▸ Option.some.inj hb2
          exact absurd h200 hs
  · cases resp with
    | none => simp [uploadCatboxManual]
    | some p =>
      obtain ⟨s, b⟩ := p
      simp only [uploadCatboxManual]
      by_cases hs : s = 200
      · subst hs
        by_cases hp : httpsPref.isPrefixOf b = true
        · rw [if_pos ⟨rfl, hp⟩]
          constructor
          · intro h
            exact ⟨b, rfl, hp, (Option.some.inj h).symm⟩
          · rintro ⟨b2, hb2, hp2, hu⟩
            obtain ⟨-, rfl⟩ := Prod.mk.injEq .. ▸ Option.some.inj hb2
            rw [hu]
        · rw [if_neg fun hc => hp hc.2]
          constructor
          · intro h; exact absurd h (by simp)
          · rintro ⟨b2, hb2, hp2, hu⟩
            obtain ⟨-, rfl⟩ := Prod.mk.injEq .. ▸ Option.some.inj hb2
            exact absurd hp2 hp
      · rw [if_neg fun hc => hs hc.1]
        constructor
        · intro h; exact absurd h (by simp)
        · rintro ⟨b2, hb2, hp2, hu⟩
          obtain ⟨h200, -⟩ := Prod.mk.injEq .. ▸ Option.some.inj hb2
          exact absurd h200 hs

/-- C5 counterexample: on status 200 with body `"\nhttps://a"` — whose raw
text does not start with `https://` — the automated uploader succeeds (it
strips first) while the manual one fails: the success criteria differ, and
the automated one accepts a body that is not itself a well-formed URL. -/
theorem upload_to_catbox_cex :
    httpsPref.isPrefixOf "\nhttps://a".data = false
      ∧ uploadCatboxAuto (some (200, "\nhttps://a".data)) = some "https://a".data
      ∧ uploadCatboxManual (some (200, "\nhttps://a".data)) = none := by
  decide

/-- C6 (amended): thumbnail extraction fails exactly when the file cannot be
opened or the computed target frame cannot be decoded. Absent frame-rate
metadata (fps reported as 0) is not by itself a failure: the automated
variant then grabs frame 0 through the duration fallback, and the manual
variant never consults fps at all. -/
theorem thumbnail_failure_characterization (v : VideoFile) (ts : ℚ)
    (p q : List Char) :
    (extract_video_thumbnail v ts p = none ↔
        v.canOpen = false ∨ v.readFrameAt (targetFrame v ts) = false)
      ∧ (extract_thumbnail_manual v q = none ↔
        v.canOpen = false ∨ v.readFrameAt 30 = false) := by
  constructor
  · cases h1 : v.canOpen <;> cases h2 : v.readFrameAt (targetFrame v ts) <;>
      simp [extract_video_thumbnail, h1, h2]
  · cases h1 : v.canOpen <;> cases h2 : v.readFrameAt 30 <;>
      simp [extract_thumbnail_manual, h1, h2]

/-- C6 counterexample: a video whose fps metadata is absent (reported 0) but
whose frames decode: extraction succeeds (at frame 0) instead of failing. -/
theorem thumbnail_fps_absent_cex :
    (VideoFile.mk true 0 100 fun _ => true).fps = 0
      ∧ extract_video_thumbnail (VideoFile.mk true 0 100 fun _ => true) 2 thumbPathAuto
          = some thumbPathAuto := by
  exact ⟨rfl, by decide⟩

/-- C7: for any keywords-meta content and any visible text, the extracted tag
list has at most 5 elements and no duplicates. -/
theorem extract_tags_bounded (kw : Option (List Char)) (text : List Char) :
    (extract_tags kw text).length ≤ 5 ∧ (extract_tags kw text).Nodup := by
  constructor
  · exact List.length_take_le 5 _
  · exact List.Nodup.sublist (List.take_sublist _ _) (List.nodup_dedup _)

/-- C8 (amended): if the leftmost `(\d+):(\d+)` match in the text is exactly
`"1:23"` then the extractor returns `"1:23"` (for a text merely *containing*
`"1:23"` an earlier or longer clock match wins, see the counterexample); and
on a text where none of the three duration patterns matches anywhere, it
returns the `"0:15"` default. -/
theorem extract_duration_spec (text text' : List Char)
    (h : scanFirst matchClockAt text = some ("1:23".data))
    (h1 : scanFirst matchClockAt text' = none)
    (h2 : scanFirst matchSecsAt text' = none)
    (h3 : scanFirst matchSecWordAt text' = none) :
    extract_duration text = "1:23".data ∧ extract_duration text' = "0:15".data := by
  constructor
  · simp [extract_duration, firstSome, h]
  · simp [extract_duration, firstSome, h1, h2, h3]

/-- Witness for C8's theorem on concrete texts. -/
theorem extract_duration_spec_w :
    extract_duration "x 1:23 y".data = "1:23".data
      ∧ extract_duration "no duration here".data = "0:15".data :=
  extract_duration_spec _ _ (by decide) (by decide) (by decide) (by decide)

/-- C8 counterexample: the text `"11:23"` contains the substring `"1:23"`,
but the extractor returns the full leftmost clock match `"11:23"`. -/
theorem extract_duration_cex :
    "1:23".data <:+: "11:23".data
      ∧ extract_duration "11:23".data ≠ "1:23".data := by
  exact ⟨⟨"1".data, [], by decide⟩, by decide⟩

lemma pyTruthyB_iff (o : Option (List Char)) :
    pyTruthyB o = true ↔ ∃ s, o = some s ∧ s ≠ [] := by
  cases o with
  | none => simp [pyTruthyB]
  | some s => simp [pyTruthyB, List.isEmpty_iff]

/-- C1: in the automated variant the line-268 check appends the record
exactly when both hosted URLs in the dict are present and non-empty; in the
manual variant a record is built and appended exactly on the corresponding
line-149 check, and every appended record carries non-empty hosted URLs — in
particular a successful video upload with a failed thumbnail upload never
yields an exported record in either variant. -/
theorem record_appended_iff_urls (env : ScrapeEnv) (menv : ManualEnv) :
    ((scrapeTemplatePage env).appended = true ↔
        (∃ v, (scrapeTemplatePage env).data.video_url = some v ∧ v ≠ [])
          ∧ ∃ t, (scrapeTemplatePage env).data.thumbnail_url = some t ∧ t ≠ [])
      ∧ ((processTemplate menv).result.isSome = true ↔
        ∃ d, (processTemplate menv).result = some d
          ∧ d.video_url ≠ [] ∧ d.thumbnail_url ≠ []) := by
  constructor
  · cases hv : env.videoSrc with
    | none => simp [scrapeTemplatePage, hv]
    | some u =>
      cases hd : env.download with
      | earlyFail => simp [scrapeTemplatePage, hv, hd]
      | lateFail => simp [scrapeTemplatePage, hv, hd]
      | ok =>
        cases ht : extract_video_thumbnail env.video 2 thumbPathAuto with
        | none => simp [scrapeTemplatePage, hv, hd, ht]
        | some pth =>
          simp [scrapeTemplatePage, hv, hd, ht, Bool.and_eq_true, pyTruthyB_iff]
  · cases hd : menv.download with
    | earlyFail => simp [processTemplate, hd]
    | lateFail => simp [processTemplate, hd]
    | ok =>
      cases ht : extract_thumbnail_manual menv.video thumbFileManual with
      | none => simp [processTemplate, hd, ht]
      | some pth =>
        cases hvu : uploadCatboxManual menv.uploadVideoResp with
        | none => simp [processTemplate, hd, ht, hvu]
        | some v =>
          cases htu : uploadCatboxManual menv.uploadThumbResp with
          | none => simp [processTemplate, hd, ht, hvu, htu]
          | some t =>
            by_cases he : (v.isEmpty || t.isEmpty) = true
            · simp [processTemplate, hd, ht, hvu, htu, he]
            · have hv2 : v ≠ [] := by
                intro hv0; subst hv0; exact he (by simp)
              have ht2 : t ≠ [] := by
                intro ht0; subst ht0; exact he (by simp)
              simp [processTemplate, hd, ht, hvu, htu, he, hv2, ht2]

/-- C2 (amended): cleanup of the per-record temporary files runs — regardless
of the upload outcomes — only on the path where the download and the
thumbnail extraction both succeeded; on that path, when `os.remove` raises no
error, no temp file is left in either variant. (When an earlier stage fails,
the downloaded video can be left behind: see the counterexample.) -/
theorem cleanup_after_thumbnail_stage (env : ScrapeEnv) (menv : ManualEnv)
    (h1 : env.download = .ok)
    (h2 : extract_video_thumbnail env.video 2 thumbPathAuto ≠ none)
    (h3 : env.rmVideoFails = false) (h4 : env.rmThumbFails = false)
    (h5 : menv.download = .ok)
    (h6 : extract_thumbnail_manual menv.video thumbFileManual ≠ none)
    (h7 : menv.rmVideoFails = false) (h8 : menv.rmThumbFails = false) :
    (scrapeTemplatePage env).leftoverFiles = []
      ∧ (processTemplate menv).leftoverFiles = [] := by
  constructor
  · cases hv : env.videoSrc with
    | none => simp [scrapeTemplatePage, hv]
    | some u =>
      cases ht : extract_video_thumbnail env.video 2 thumbPathAuto with
      | none => exact absurd ht h2
      | some pth => simp [scrapeTemplatePage, hv, h1, ht, h3, h4]
  · cases ht : extract_thumbnail_manual menv.video thumbFileManual with
    | none => exact absurd ht h6
    | some pth =>
      cases hvu : uploadCatboxManual menv.uploadVideoResp with
      | none => simp [processTemplate, h5, ht, hvu, h7, h8]
      | some v =>
        cases htu : uploadCatboxManual menv.uploadThumbResp with
        | none => simp [processTemplate, h5, ht, hvu, htu, h7, h8]
        | some t =>
          by_cases he : (v.isEmpty || t.isEmpty) = true <;>
            simp [processTemplate, h5, ht, hvu, htu, he, h7, h8]

/-- Environment for C2's witness, automated variant: all stages up to the
thumbnail succeed, both uploads *fail* (HTTP 500), removals raise nothing. -/
def scrapeEnvUploadFail : ScrapeEnv :=
  { pageUrl := "https://x/template-detail/foo/123".data
    titleText := "T".data, descText := [], keywordsContent := none
    pageText := [], videoSrc := some "https://v/x.mp4".data
    download := .ok
    video := { canOpen := true, fps := 30, totalFrames := 300
               readFrameAt := fun _ => true }
    uploadVideoResp := some (500, "error".data)
    uploadThumbResp := some (500, "error".data)
    rmVideoFails := false, rmThumbFails := false }

/-- Environment for C2's witness, manual variant: same scenario. -/
def manualEnvUploadFail : ManualEnv :=
  { title := "T".data, videoSrcUrl := "https://v/x.mp4".data
    templateUrl := none
    download := .ok
    video := { canOpen := true, fps := 30, totalFrames := 300
               readFrameAt := fun _ => true }
    uploadVideoResp := some (500, "error".data)
    uploadThumbResp := some (500, "error".data)
    rmVideoFails := false, rmThumbFails := false }

/-- Witness for C2's theorem: even with both uploads failing, the success of
download and thumbnail extraction means cleanup runs and no temp file
remains. -/
theorem cleanup_after_thumbnail_stage_w :
    (scrapeTemplatePage scrapeEnvUploadFail).leftoverFiles = []
      ∧ (processTemplate manualEnvUploadFail).leftoverFiles = [] :=
  cleanup_after_thumbnail_stage scrapeEnvUploadFail manualEnvUploadFail
    rfl (by decide) rfl rfl rfl (by decide) rfl rfl

/-- Environment for C2's counterexample, automated variant: the download
succeeds but no frame of the video decodes, so thumbnail extraction fails. -/
def scrapeEnvThumbFail : ScrapeEnv :=
  { pageUrl := "https://x/template-detail/foo/123".data
    titleText := "T".data, descText := [], keywordsContent := none
    pageText := [], videoSrc := some "https://v/x.mp4".data
    download := .ok
    video := { canOpen := true, fps := 30, totalFrames := 300
               readFrameAt := fun _ => false }
    uploadVideoResp := some (200, "https://files.catbox.moe/v.mp4".data)
    uploadThumbResp := some (200, "https://files.catbox.moe/t.jpg".data)
    rmVideoFails := false, rmThumbFails := false }

/-- Environment for C2's counterexample, manual variant: same scenario. -/
def manualEnvThumbFail : ManualEnv :=
  { title := "T".data, videoSrcUrl := "https://v/x.mp4".data
    templateUrl := none
    download := .ok
    video := { canOpen := true, fps := 30, totalFrames := 300
               readFrameAt := fun _ => false }
    uploadVideoResp := some (200, "https://files.catbox.moe/v.mp4".data)
    uploadThumbResp := some (200, "https://files.catbox.moe/t.jpg".data)
    rmVideoFails := false, rmThumbFails := false }

/-- C2 counterexample: when the thumbnail stage fails after a successful
download, both variants return before their cleanup block and the downloaded
video file stays on disk. -/
theorem cleanup_missed_on_thumbnail_failure :
    (scrapeTemplatePage scrapeEnvThumbFail).leftoverFiles = [videoPathAuto]
      ∧ (processTemplate manualEnvThumbFail).leftoverFiles = [videoFileManual] := by
  decide

/-- A field value with no line-terminator character, so that it occupies one
physical line of csv output. -/
def cleanField (f : List Char) : Prop := ∀ c ∈ f, c ≠ '\r' ∧ c ≠ '\n'

instance (f : List Char) : Decidable (cleanField f) :=
  inferInstanceAs (Decidable (∀ c ∈ f, c ≠ '\r' ∧ c ≠ '\n'))

lemma escapeQuotes_noCR {f : List Char} (h : ∀ c ∈ f, c ≠ '\r') :
    ∀ c ∈ escapeQuotes f, c ≠ '\r' := by
  induction f with
  | nil => simp [escapeQuotes]
  | cons d rest ih =>
    have hd := h d (List.mem_cons_self d rest)
    have hr : ∀ c ∈ rest, c ≠ '\r' := fun c hc => h c (List.mem_cons_of_mem _ hc)
    by_cases hq : d = '"'
    · simp only [escapeQuotes, if_pos hq]
      intro c hc
      simp only [List.mem_cons] at hc
      rcases hc with rfl | rfl | hc
      · decide
      · decide
      · exact ih hr c hc
    · simp only [escapeQuotes, if_neg hq]
      intro c hc
      simp only [List.mem_cons] at hc
      rcases hc with rfl | hc
      · exact hd
      · exact ih hr c hc

lemma renderField_noCR {f : List Char} (h : ∀ c ∈ f, c ≠ '\r') :
    ∀ c ∈ renderField f, c ≠ '\r' := by
  unfold renderField
  split
  · intro c hc
    simp only [List.mem_cons, List.mem_append, List.mem_singleton,
      List.not_mem_nil, or_false] at hc
    rcases hc with rfl | hc | rfl
    · decide
    · exact escapeQuotes_noCR h c hc
    · decide
  · exact h

lemma joinComma_noCR {ls : List (List Char)} (h : ∀ l ∈ ls, ∀ c ∈ l, c ≠ '\r') :
    ∀ c ∈ joinComma ls, c ≠ '\r' := by
  induction ls with
  | nil => simp [joinComma]
  | cons f rest ih =>
    cases rest with
    | nil => simpa [joinComma] using h f (List.mem_cons_self f [])
    | cons g rest2 =>
      intro c hc
      simp only [joinComma, List.mem_append, List.mem_cons] at hc
      rcases hc with hc | rfl | hc
      · exact h f (List.mem_cons_self ..) c hc
      · decide
      · exact ih (fun l hl => h l (List.mem_cons_of_mem _ hl)) c hc

lemma rowChars_noCR {fields : List (List Char)} (h : ∀ f ∈ fields, cleanField f) :
    ∀ c ∈ rowChars fields, c ≠ '\r' := by
  unfold rowChars
  refine joinComma_noCR ?_
  intro l hl
  obtain ⟨f, hf, rfl⟩ := List.mem_map.mp hl
  exact renderField_noCR fun c hc => (h f hf c hc).1

lemma splitCRLF_append {line rest : List Char} (h : ∀ c ∈ line, c ≠ '\r') :
    splitCRLF (line ++ '\r' :: '\n' :: rest) = line :: splitCRLF rest := by
  induction line with
  | nil =>
    show splitCRLF ('\r' :: '\n' :: rest) = [] :: splitCRLF rest
    simp only [splitCRLF]
    rw [if_pos (by decide)]
  | cons c line2 ih =>
    have hc : c ≠ '\r' := h c (List.mem_cons_self ..)
    have ih2 := ih fun d hd => h d (List.mem_cons_of_mem _ hd)
    cases line2 with
    | nil =>
      show splitCRLF (c :: '\r' :: '\n' :: rest) = [c] :: splitCRLF rest
      simp only [splitCRLF]
      rw [if_neg (by simp [hc]), if_pos (by decide)]
      rfl
    | cons e line3 =>
      show splitCRLF (c :: e :: (line3 ++ '\r' :: '\n' :: rest))
          = (c :: e :: line3) :: splitCRLF rest
      simp only [splitCRLF]
      rw [if_neg (by simp [hc])]
      have he : e :: (line3 ++ '\r' :: '\n' :: rest)
          = (e :: line3) ++ '\r' :: '\n' :: rest := rfl
      rw [he, ih2]
      rfl

lemma splitCRLF_csvContent {rows : List (List (List Char))}
    (h : ∀ r ∈ rows, ∀ f ∈ r, cleanField f) :
    splitCRLF (csvContent rows) = rows.map rowChars ++ [[]] := by
  induction rows with
  | nil => simp [csvContent, splitCRLF]
  | cons r rest ih =>
    have hr : ∀ c ∈ rowChars r, c ≠ '\r' :=
      rowChars_noCR (h r (List.mem_cons_self ..))
    simp only [csvContent, List.map_cons]
    rw [splitCRLF_append hr, ih fun r2 hr2 => h r2 (List.mem_cons_of_mem _ hr2)]
    rfl

/-- C9: for record collections whose exported field values contain no
line-terminator characters, the csv output parses back into exactly the
header line followed by one line per record in insertion order (plus the
empty segment after the final row terminator) — in both variants, with the
automated one refusing to write a file for an empty collection. Both
exporters are pure functions of the record list, so re-running them on the
same collection is byte-identical by construction. -/
theorem export_csv_rows (mts : List ManualData) (ats : List TemplateData)
    (hm : ∀ d ∈ mts, ∀ f ∈ manualRowFields d, cleanField f)
    (ha : ∀ d ∈ ats, ∀ f ∈ autoRowFields d, cleanField f) :
    splitCRLF (export_csv mts)
        = rowChars manualFieldnames
            :: mts.map (fun d => rowChars (manualRowFields d)) ++ [[]]
      ∧ (ats ≠ [] → ∃ c, export_to_csv ats = some c ∧
          splitCRLF c
            = rowChars autoFieldnames
                :: ats.map (fun d => rowChars (autoRowFields d)) ++ [[]]) := by
  constructor
  · unfold export_csv
    rw [splitCRLF_csvContent]
    · simp
    · intro r hr
      rcases List.mem_cons.mp hr with rfl | hr2
      · decide
      · obtain ⟨d, hd, rfl⟩ := List.mem_map.mp hr2
        exact hm d hd
  · intro hne
    refine ⟨csvContent (autoFieldnames :: ats.map autoRowFields), ?_, ?_⟩
    · unfold export_to_csv
      rw [if_neg fun hh => hne (List.isEmpty_iff.mp hh)]
    · rw [splitCRLF_csvContent]
      · simp
      · intro r hr
        rcases List.mem_cons.mp hr with rfl | hr2
        · decide
        · obtain ⟨d, hd, rfl⟩ := List.mem_map.mp hr2
          exact ha d hd

/-- Witness for C9's theorem on concrete one-record collections. -/
theorem export_csv_rows_w :
    splitCRLF (export_csv
        [ManualData.mk "T".data (some "123".data) "link".data
          "https://v".data "https://t".data "https://o".data "https://s".data])
        = rowChars manualFieldnames
            :: [rowChars (manualRowFields
                (ManualData.mk "T".data (some "123".data) "link".data
                  "https://v".data "https://t".data "https://o".data
                  "https://s".data))] ++ [[]]
      ∧ ([TemplateData.mk "w".data "T".data (some "123".data) "d".data
            ["a".data] "0:15".data (some "https://v".data)
            (some "https://t".data) (some "link".data)] ≠ [] →
          ∃ c, export_to_csv
              [TemplateData.mk "w".data "T".data (some "123".data) "d".data
                ["a".data] "0:15".data (some "https://v".data)
                (some "https://t".data) (some "link".data)] = some c ∧
            splitCRLF c
              = rowChars autoFieldnames
                  :: [rowChars (autoRowFields
                      (TemplateData.mk "w".data "T".data (some "123".data)
                        "d".data ["a".data] "0:15".data
                        (some "https://v".data) (some "https://t".data)
                        (some "link".data)))] ++ [[]]) := by
  have h := export_csv_rows
    [ManualData.mk "T".data (some "123".data) "link".data
      "https://v".data "https://t".data "https://o".data "https://s".data]
    [TemplateData.mk "w".data "T".data (some "123".data) "d".data
      ["a".data] "0:15".data (some "https://v".data)
      (some "https://t".data) (some "link".data)]
    (by decide) (by decide)
  simpa using h

end Capcut
